import Mathlib

/-!
Verification of the asynchronous ingestion job pipeline and the
knowledge-compilation builder of synapse-cortex.

The definitions below are a shallow embedding of the Python sources:
`app/services/job_store.py`, `app/services/ingestion.py`,
`app/services/hydration.py` and the polling route in `app/api/routes.py`.
Suspension points (graph queries, the extraction engine, hydration) are
passed in as explicit parameters or `Except` results; the process-wide
mutable dictionary of jobs is threaded as an explicit association list.
-/

namespace SynapseCortex

/-! ## Job store (`app/services/job_store.py`) -/

/-- The status literal of a `JobEntry`: `"processing" | "completed" | "failed"`. -/
inductive JobStatus where
  | processing
  | completed
  | failed
deriving DecidableEq

/-- `JobEntry` dataclass: lightweight job state for async ingest tracking.
Optional fields default to `None` exactly as in the dataclass. Timestamps and
durations are carried opaquely as naturals. -/
structure JobEntry where
  status : JobStatus
  user_id : String
  session_id : String
  created_at : Nat
  model : Option String := none
  processing_time_ms : Option Nat := none
  nodes_extracted : Option Nat := none
  edges_extracted : Option Nat := none
  episode_id : Option String := none
  error : Option String := none
  code : Option String := none
deriving DecidableEq

/-- The module-level `_jobs` dictionary, threaded explicitly: an association
list from job id to entry (keys are unique in every store built by the
operations, since `create_job` refuses duplicates). -/
abbrev JobStore := List (String × JobEntry)

/-- `get_job`: dictionary lookup, `None` when the key is absent. -/
def get_job : JobStore → String → Option JobEntry
  | [], _ => none
  | (k, v) :: rest, job_id => if k = job_id then some v else get_job rest job_id

/-- `create_job`: returns `False` if the job already exists (idempotency
guard), otherwise inserts a fresh `processing` entry and returns `True`. -/
def create_job (job_id user_id session_id : String) (now : Nat)
    (store : JobStore) : Bool × JobStore :=
  if (get_job store job_id).isSome then
    (false, store)
  else
    (true,
      (job_id,
        { status := JobStatus.processing, user_id := user_id,
          session_id := session_id, created_at := now }) :: store)

/-- `complete_job`: if the job is present, mutate it in place to `completed`
and attach the completion metadata; silently do nothing otherwise. -/
def complete_job (job_id : String) (model : Option String)
    (processing_time_ms : Option Nat) (nodes_extracted : Option Nat)
    (edges_extracted : Option Nat) (episode_id : Option String)
    (store : JobStore) : JobStore :=
  store.map fun p =>
    if p.1 = job_id then
      (p.1,
        { p.2 with
          status := JobStatus.completed, model := model,
          processing_time_ms := processing_time_ms,
          nodes_extracted := nodes_extracted,
          edges_extracted := edges_extracted, episode_id := episode_id })
    else p

/-- `fail_job`: if the job is present, mutate it in place to `failed` with the
error details; silently do nothing otherwise. -/
def fail_job (job_id : String) (error : String) (code : Option String)
    (store : JobStore) : JobStore :=
  store.map fun p =>
    if p.1 = job_id then
      (p.1,
        { p.2 with
          status := JobStatus.failed, error := some error, code := code })
    else p

/-- `remove_job`: `_jobs.pop(job_id, None)` — unconditional, idempotent
deletion. -/
def remove_job (job_id : String) (store : JobStore) : JobStore :=
  store.filter fun p => p.1 ≠ job_id

/-! ### Lookup lemmas for the store operations -/

theorem get_job_cons (k : String) (v : JobEntry) (rest : JobStore) (i : String) :
    get_job ((k, v) :: rest) i = if k = i then some v else get_job rest i := rfl

theorem get_job_map_update (store : JobStore) (j : String)
    (f : JobEntry → JobEntry) (i : String) :
    get_job (store.map fun p => if p.1 = j then (p.1, f p.2) else p) i =
      if i = j then (get_job store i).map f else get_job store i := by
  induction store with
  | nil => simp [get_job]
  | cons head tail ih =>
    obtain ⟨k, v⟩ := head
    by_cases hkj : k = j
    · subst hkj
      have hmap :
          List.map (fun p : String × JobEntry =>
            if p.1 = k then (p.1, f p.2) else p) ((k, v) :: tail) =
            (k, f v) :: List.map (fun p =>
              if p.1 = k then (p.1, f p.2) else p) tail := by
        simp
      rw [hmap]
      simp only [get_job_cons]
      by_cases hik : k = i
      · subst hik
        simp
      · have hik2 : ¬ i = k := fun h => hik h.symm
        simp [hik, hik2, ih]
    · have hmap :
          List.map (fun p : String × JobEntry =>
            if p.1 = j then (p.1, f p.2) else p) ((k, v) :: tail) =
            (k, v) :: List.map (fun p =>
              if p.1 = j then (p.1, f p.2) else p) tail := by
        simp [hkj]
      rw [hmap]
      simp only [get_job_cons]
      by_cases hik : k = i
      · have hij : ¬ i = j := fun h => hkj (by rw [hik, h])
        simp [hik, hij]
      · simp [hik, ih]

theorem get_job_complete (store : JobStore) (j i : String) (m : Option String)
    (t n e : Option Nat) (ep : Option String) :
    get_job (complete_job j m t n e ep store) i =
      if i = j then
        (get_job store i).map fun en =>
          { en with
            status := JobStatus.completed, model := m,
            processing_time_ms := t, nodes_extracted := n,
            edges_extracted := e, episode_id := ep }
      else get_job store i := by
  simp only [complete_job]
  exact get_job_map_update store j
    (fun en =>
      { en with
        status := JobStatus.completed, model := m, processing_time_ms := t,
        nodes_extracted := n, edges_extracted := e, episode_id := ep }) i

theorem get_job_fail (store : JobStore) (j i err : String) (c : Option String) :
    get_job (fail_job j err c store) i =
      if i = j then
        (get_job store i).map fun en =>
          { en with status := JobStatus.failed, error := some err, code := c }
      else get_job store i := by
  simp only [fail_job]
  exact get_job_map_update store j
    (fun en =>
      { en with status := JobStatus.failed, error := some err, code := c }) i

theorem get_job_remove (store : JobStore) (j i : String) :
    get_job (remove_job j store) i =
      if i = j then none else get_job store i := by
  induction store with
  | nil => simp [get_job, remove_job]
  | cons head tail ih =>
    obtain ⟨k, v⟩ := head
    by_cases hkj : k = j
    · subst hkj
      have hmap : remove_job k ((k, v) :: tail) = remove_job k tail := by
        simp [remove_job]
      rw [hmap, ih]
      by_cases hik : i = k
      · simp [hik]
      · have hik2 : ¬ k = i := fun h => hik h.symm
        simp [hik, hik2, get_job_cons]
    · have hmap : remove_job j ((k, v) :: tail) = (k, v) :: remove_job j tail := by
        simp [remove_job, hkj]
      rw [hmap]
      simp only [get_job_cons]
      by_cases hik : k = i
      · have hij : ¬ i = j := fun h => hkj (by rw [hik, h])
        simp [hik, hij]
      · simp [hik, ih]

theorem create_job_of_present (job_id u s : String) (now : Nat)
    (store : JobStore) (h : (get_job store job_id).isSome = true) :
    create_job job_id u s now store = (false, store) := by
  simp [create_job, h]

theorem create_job_of_absent (job_id u s : String) (now : Nat)
    (store : JobStore) (h : get_job store job_id = none) :
    create_job job_id u s now store =
      (true,
        (job_id,
          { status := JobStatus.processing, user_id := u, session_id := s,
            created_at := now }) :: store) := by
  simp [create_job, h]

/-- Claim C2: on a fresh `jobId` the first `create_job` returns `True` and
inserts a `processing` entry carrying the given `userId`/`sessionId`; any
second `create_job` with the same `jobId` returns `False` and leaves the store
unchanged, so the stored record still reflects the first call. -/
theorem create_job_first_wins (job_id u s u2 s2 : String) (now now2 : Nat)
    (store : JobStore) (hfresh : get_job store job_id = none) :
    (create_job job_id u s now store).1 = true
    ∧ get_job (create_job job_id u s now store).2 job_id =
        some { status := JobStatus.processing, user_id := u, session_id := s,
               created_at := now }
    ∧ create_job job_id u2 s2 now2 (create_job job_id u s now store).2 =
        (false, (create_job job_id u s now store).2)
    ∧ get_job (create_job job_id u2 s2 now2
          (create_job job_id u s now store).2).2 job_id =
        some { status := JobStatus.processing, user_id := u, session_id := s,
               created_at := now } := by
  rw [create_job_of_absent job_id u s now store hfresh]
  refine ⟨rfl, ?_, ?_, ?_⟩
  · simp [get_job]
  · apply create_job_of_present
    simp [get_job]
  · rw [create_job_of_present]
    · simp [get_job]
    · simp [get_job]

/-- Witness for C2 at a concrete store. -/
theorem create_job_first_wins_witness :
    (create_job "j" "u" "s" 0 []).1 = true
    ∧ get_job (create_job "j" "u" "s" 0 []).2 "j" =
        some { status := JobStatus.processing, user_id := "u",
               session_id := "s", created_at := 0 }
    ∧ create_job "j" "u2" "s2" 1 (create_job "j" "u" "s" 0 []).2 =
        (false, (create_job "j" "u" "s" 0 []).2)
    ∧ get_job (create_job "j" "u2" "s2" 1 (create_job "j" "u" "s" 0 []).2).2 "j" =
        some { status := JobStatus.processing, user_id := "u",
               session_id := "s", created_at := 0 } :=
  create_job_first_wins "j" "u" "s" "u2" "s2" 0 1 [] rfl

/-! ## Hydration service (`app/services/hydration.py`)

The two Cypher queries are the suspension points; their tabular results are
passed in as explicit record lists. Fields that the driver may return as
`null` are `Option String`; Python string truthiness (`if name and summary`)
is `none` or the empty string being falsy. -/

/-- `DEFAULT_MIN_DEGREE = 2`. -/
def DEFAULT_MIN_DEGREE : Nat := 2

/-- One row of `FETCH_ENTITIES_QUERY`: `name`, `summary`, `degree`. -/
structure EntityRecord where
  name : Option String := none
  summary : Option String := none
  degree : Nat := 0
deriving DecidableEq

/-- One row of `FETCH_RELATIONSHIPS_QUERY`. -/
structure RelationshipRecord where
  source_name : Option String := none
  relation_name : Option String := none
  target_name : Option String := none
  fact : Option String := none
  valid_at : Option String := none
  invalid_at : Option String := none
deriving DecidableEq

/-- `_format_relation_name`: `"relates to"` for a falsy name, otherwise
underscores become spaces and the result is lower-cased. -/
def format_relation_name (name : Option String) : String :=
  match name with
  | none => "relates to"
  | some s => if s = "" then "relates to" else (s.replace "_" " ").toLower

/-- The formatting loop of `_fetch_entity_definitions` applied to the query
records: keep rows whose `name` and `summary` are truthy, rendered as
`- **name**: summary`. -/
def entity_definition_lines (records : List EntityRecord) : List String :=
  records.filterMap fun record =>
    let name := record.name.getD ""
    let summary := record.summary.getD ""
    if name ≠ "" ∧ summary ≠ "" then
      some ("- **" ++ name ++ "**: " ++ summary)
    else none

/-- The formatting loop of `_fetch_relationships` applied to the query
records: rows with a falsy source or target are skipped; a truthy fact is
appended as `: "fact"`; whichever temporal fields are truthy are appended in a
bracketed suffix separated by `, `. -/
def relationship_lines (records : List RelationshipRecord) : List String :=
  records.filterMap fun record =>
    let source := record.source_name.getD ""
    let target := record.target_name.getD ""
    let verb := format_relation_name record.relation_name
    if source = "" ∨ target = "" then none
    else
      let line := "- " ++ source ++ " " ++ verb ++ " " ++ target
      let line :=
        match record.fact with
        | some f => if f = "" then line else line ++ ": \"" ++ f ++ "\""
        | none => line
      let temporal_parts :=
        (match record.valid_at with
          | some v => if v = "" then [] else ["valid_at: " ++ v]
          | none => []) ++
        (match record.invalid_at with
          | some v => if v = "" then [] else ["invalid_at: " ++ v]
          | none => [])
      let line :=
        if temporal_parts.isEmpty then line
        else line ++ " [" ++ String.intercalate ", " temporal_parts ++ "]"
      some line

/-- `_format_compilation`: optional definitions section, optional
relationships section, joined by a blank line, followed by a stats footer with
the counts and `total_chars // 4` estimated tokens. -/
def format_compilation (definitions relationships : List String) : String :=
  let sections :=
    (if definitions.isEmpty then []
     else
       ["#### 1. CONCEPTUAL DEFINITIONS & IDENTITY ####\n"
          ++ "# (Understanding what these concepts mean specifically for this user)\n"
          ++ String.intercalate "\n" definitions]) ++
    (if relationships.isEmpty then []
     else
       ["#### 2. RELATIONAL DYNAMICS & CAUSALITY ####\n"
          ++ "# (How these concepts interact and evolve over time)\n"
          ++ String.intercalate "\n" relationships])
  if sections.isEmpty then ""
  else
    let content := String.intercalate "\n\n" sections
    let total_chars :=
      (definitions.map String.length).sum + (relationships.map String.length).sum
    let est_tokens := total_chars / 4
    let stats :=
      "\n\n### STATS ###\n# Definitions: " ++ toString definitions.length
        ++ " | Relations: " ++ toString relationships.length
        ++ " | Est. Tokens: ~" ++ toString est_tokens
    content ++ stats

/-- `build_user_knowledge`, as a function of the two fetched record sets:
empty string when both formatted line lists are empty, otherwise the
assembled compilation. -/
def build_user_knowledge (entity_records : List EntityRecord)
    (relationship_records : List RelationshipRecord) : String :=
  let definitions := entity_definition_lines entity_records
  let relationships := relationship_lines relationship_records
  if definitions.isEmpty && relationships.isEmpty then ""
  else format_compilation definitions relationships

theorem ne_empty_of_length_ne_zero (s : String) (h : s.length ≠ 0) :
    s ≠ "" := by
  intro he
  rw [he] at h
  exact h rfl

theorem format_compilation_ne_empty (definitions relationships : List String)
    (h : ¬(definitions = [] ∧ relationships = [])) :
    format_compilation definitions relationships ≠ "" := by
  have hsec :
      ((if definitions.isEmpty then []
        else
          ["#### 1. CONCEPTUAL DEFINITIONS & IDENTITY ####\n"
            ++ "# (Understanding what these concepts mean specifically for this user)\n"
            ++ String.intercalate "\n" definitions]) ++
       (if relationships.isEmpty then []
        else
          ["#### 2. RELATIONAL DYNAMICS & CAUSALITY ####\n"
            ++ "# (How these concepts interact and evolve over time)\n"
            ++ String.intercalate "\n" relationships])).isEmpty = false := by
    cases hde : definitions.isEmpty <;> cases hre : relationships.isEmpty <;>
      simp_all [List.isEmpty_iff]
  apply ne_empty_of_length_ne_zero
  rw [format_compilation]
  simp only [hsec, Bool.false_eq_true, if_false]
  rw [String.length_append]
  intro hlen
  have hstats :
      ("\n\n### STATS ###\n# Definitions: " ++ toString definitions.length
        ++ " | Relations: " ++ toString relationships.length
        ++ " | Est. Tokens: ~"
        ++ toString (((definitions.map String.length).sum
              + (relationships.map String.length).sum) / 4)).length ≠ 0 := by
    simp only [String.length_append]
    have h31 : (0 : Nat) <
        ("\n\n### STATS ###\n# Definitions: " : String).length := by decide
    omega
  exact hstats (by omega)

/-- Claim C5 counterexample: a non-empty entity-definition input whose single
record has a null `name` (as the Cypher query may return) formats to no lines,
so the build returns the empty string even though the input is non-empty. -/
theorem build_user_knowledge_empty_iff_cex :
    build_user_knowledge
        [{ name := none, summary := some "Summary", degree := 2 }] [] = ""
    ∧ ([{ name := none, summary := some "Summary", degree := 2 }]
        : List EntityRecord) ≠ [] := by
  constructor
  · rfl
  · intro h
    exact absurd h (by simp)

/-- Claim C5 (amended): the build returns the empty string iff both inputs
contain no formattable record (an entity row with truthy name and summary, a
relationship row with truthy source and target); on any other input the
assembled document is non-empty. -/
theorem build_user_knowledge_empty_iff (entity_records : List EntityRecord)
    (relationship_records : List RelationshipRecord) :
    build_user_knowledge entity_records relationship_records = ""
      ↔ entity_definition_lines entity_records = []
        ∧ relationship_lines relationship_records = [] := by
  rw [build_user_knowledge]
  by_cases hd : entity_definition_lines entity_records = []
  · by_cases hr : relationship_lines relationship_records = []
    · rw [if_pos]
      · simp [hd, hr]
      · simp [hd, hr]
    · rw [if_neg (by simp [hr])]
      have := format_compilation_ne_empty (entity_definition_lines entity_records)
        (relationship_lines relationship_records) (by tauto)
      simp only [this, false_iff]
      tauto
  · rw [if_neg (by simp [hd])]
    have := format_compilation_ne_empty (entity_definition_lines entity_records)
      (relationship_lines relationship_records) (by tauto)
    simp only [this, false_iff]
    tauto

/-! ## Ingestion service (`app/services/ingestion.py`) -/

/-- `MIN_MESSAGES = 1`. -/
def MIN_MESSAGES : Nat := 1

/-- `MIN_TOTAL_CHARS = 5`. -/
def MIN_TOTAL_CHARS : Nat := 5

/-- The `role` literal of an `IngestMessage`: `"user" | "assistant"`. -/
inductive Role where
  | user
  | assistant
deriving DecidableEq

/-- `IngestMessage`: one chat message. -/
structure IngestMessage where
  role : Role
  content : String
  timestamp : Nat
deriving DecidableEq

/-- `IngestMetadata`: session timing metadata. -/
structure IngestMetadata where
  sessionStartedAt : Nat
  sessionEndedAt : Nat
  messageCount : Nat
deriving DecidableEq

/-- `IngestRequest` as consumed by `accept_session`. The `jobId` field is
used throughout `ingestion.py`; its declaration is absent from the bundled
`schemas/models.py` revision, so it is included here as the session input
shape of the spec requires. -/
structure IngestRequest where
  userId : String
  sessionId : String
  jobId : String
  messages : List IngestMessage
  metadata : IngestMetadata
deriving DecidableEq

/-- Modelled from the spec: the accept-side status is one of
`processing | skipped` (the `IngestAcceptedResponse` class is missing from
the bundled `schemas/models.py` revision; `ingestion.py` only ever constructs
these two literals). -/
inductive AcceptStatus where
  | processing
  | skipped
deriving DecidableEq

/-- Modelled from the spec: `IngestAcceptedResponse` with `jobId`, `status`
and the optional compilation, exactly the fields `ingestion.py` passes to the
constructor. -/
structure IngestAcceptedResponse where
  jobId : String
  status : AcceptStatus
  userKnowledgeCompilation : Option String := none
deriving DecidableEq

/-- The observable outcome of one `accept_session` call: the returned
response, the job store afterwards, and whether `asyncio.create_task` was
invoked (a detached background task was launched). -/
structure AcceptResult where
  response : IngestAcceptedResponse
  store : JobStore
  launched : Bool
deriving DecidableEq

/-- `_should_ingest`: at least `MIN_MESSAGES` messages and at least
`MIN_TOTAL_CHARS` characters summed over message contents. -/
def should_ingest (messages : List IngestMessage) : Bool :=
  if messages.length < MIN_MESSAGES then false
  else if (messages.map fun m => m.content.length).sum < MIN_TOTAL_CHARS then
    false
  else true

/-- `_format_messages_for_graphiti`: one `RoleLabel: content` line per
message, joined by blank lines. -/
def format_messages_for_graphiti (messages : List IngestMessage) : String :=
  String.intercalate "\n\n"
    (messages.map fun msg =>
      (if msg.role = Role.user then "User" else "Assistant")
        ++ ": " ++ msg.content)

/-- `accept_session`. The synchronous hydration call of the skip path is the
suspension point `hydrate` (user id to current compilation); `now` stands for
`time.time()` inside `create_job`. -/
def accept_session (hydrate : String → String) (now : Nat)
    (request : IngestRequest) (store : JobStore) : AcceptResult :=
  if should_ingest request.messages = false then
    { response :=
        { jobId := request.jobId, status := AcceptStatus.skipped,
          userKnowledgeCompilation := some (hydrate request.userId) },
      store := store, launched := false }
  else
    let r := create_job request.jobId request.userId request.sessionId now store
    if r.1 = false then
      { response := { jobId := request.jobId, status := AcceptStatus.processing },
        store := r.2, launched := false }
    else
      { response := { jobId := request.jobId, status := AcceptStatus.processing },
        store := r.2, launched := true }

/-- The result of `graphiti.add_episode`: the counts and episode id the
background task reads from it. -/
structure ExtractionResult where
  nodes : Nat
  edges : Nat
  episode_uuid : String
deriving DecidableEq

/-- `_process_background`: on a successful extraction call `complete_job`
with the full metadata; on any raised exception catch it and call `fail_job`
with the message and the fixed code `GRAPH_PROCESSING_ERROR`. The extraction
suspension point is passed as an `Except` value (`.error` is a raised
exception carrying `str(e)`); the function is total, so no exception ever
escapes the task. -/
def process_background (job_id model : String) (elapsed_ms : Nat)
    (extraction : Except String ExtractionResult) (store : JobStore) :
    JobStore :=
  match extraction with
  | Except.ok result =>
      complete_job job_id (some model) (some elapsed_ms) (some result.nodes)
        (some result.edges) (some result.episode_uuid) store
  | Except.error e =>
      fail_job job_id e (some "GRAPH_PROCESSING_ERROR") store

theorem should_ingest_eq_false_iff (messages : List IngestMessage) :
    should_ingest messages = false
      ↔ (messages.length < 1
          ∨ (messages.map fun m => m.content.length).sum < 5) := by
  rw [should_ingest, MIN_MESSAGES, MIN_TOTAL_CHARS]
  by_cases h1 : messages.length < 1
  · simp [h1]
  · by_cases h2 : (messages.map fun m => m.content.length).sum < 5
    · simp [h1, h2]
    · simp [h1, h2]

/-- Claim C6: `accept_session` skips — returns `status=skipped` with the
current compilation attached, leaves the store unchanged and launches no
task — exactly when the message count is below 1 or the total character count
is below 5; in particular a single 4-character message is skipped and a
single 5-character message is not. -/
theorem accept_session_skip_iff (hydrate : String → String) (now : Nat)
    (request : IngestRequest) (store : JobStore) :
    ((accept_session hydrate now request store).response.status =
        AcceptStatus.skipped
      ↔ (request.messages.length < 1
          ∨ (request.messages.map fun m => m.content.length).sum < 5))
    ∧ ((request.messages.length < 1
          ∨ (request.messages.map fun m => m.content.length).sum < 5) →
        accept_session hydrate now request store =
          { response :=
              { jobId := request.jobId, status := AcceptStatus.skipped,
                userKnowledgeCompilation := some (hydrate request.userId) },
            store := store, launched := false })
    ∧ (∀ t : Nat,
        (accept_session hydrate now
          { request with
            messages := [{ role := Role.user, content := "abcd",
                           timestamp := t }] } store).response.status =
          AcceptStatus.skipped)
    ∧ (∀ t : Nat,
        (accept_session hydrate now
          { request with
            messages := [{ role := Role.user, content := "abcde",
                           timestamp := t }] } store).response.status =
          AcceptStatus.processing) := by
  refine ⟨?_, ?_, ?_, ?_⟩
  · by_cases h : should_ingest request.messages = false
    · rw [accept_session, if_pos h]
      simpa using (should_ingest_eq_false_iff request.messages).mp h
    · rw [accept_session, if_neg h]
      have h2 :
          ¬(request.messages.length < 1
            ∨ (request.messages.map fun m => m.content.length).sum < 5) :=
        fun hc => h ((should_ingest_eq_false_iff request.messages).mpr hc)
      by_cases hc : (create_job request.jobId request.userId
          request.sessionId now store).1 = false
      · rw [if_pos hc]
        simpa using h2
      · rw [if_neg hc]
        simpa using h2
  · intro h
    rw [accept_session,
      if_pos ((should_ingest_eq_false_iff request.messages).mpr h)]
  · intro t
    rw [accept_session,
      if_pos ((should_ingest_eq_false_iff _).mpr (by simp; decide))]
  · intro t
    have h : should_ingest
        [({ role := Role.user, content := "abcde", timestamp := t }
          : IngestMessage)] = true := by
      rw [should_ingest]
      simp [MIN_MESSAGES, MIN_TOTAL_CHARS]
      decide
    rw [accept_session]
    rw [if_neg (by simp [h])]
    by_cases hc : (create_job request.jobId request.userId
        request.sessionId now store).1 = false
    · rw [if_pos hc]
    · rw [if_neg hc]

/-- Witness for C6 at a concrete request and store. -/
theorem accept_session_skip_iff_witness :
    (((accept_session (fun _ => "K") 0
        { userId := "u", sessionId := "s", jobId := "j", messages := [],
          metadata := { sessionStartedAt := 0, sessionEndedAt := 0,
                        messageCount := 0 } } []).response.status =
        AcceptStatus.skipped
      ↔ (([] : List IngestMessage).length < 1
          ∨ (([] : List IngestMessage).map fun m => m.content.length).sum < 5))
    ∧ ((([] : List IngestMessage).length < 1
          ∨ (([] : List IngestMessage).map fun m => m.content.length).sum < 5) →
        accept_session (fun _ => "K") 0
          { userId := "u", sessionId := "s", jobId := "j", messages := [],
            metadata := { sessionStartedAt := 0, sessionEndedAt := 0,
                          messageCount := 0 } } [] =
          { response :=
              { jobId := "j", status := AcceptStatus.skipped,
                userKnowledgeCompilation := some "K" },
            store := [], launched := false })
    ∧ (∀ t : Nat,
        (accept_session (fun _ => "K") 0
          { userId := "u", sessionId := "s", jobId := "j",
            messages := [{ role := Role.user, content := "abcd",
                           timestamp := t }],
            metadata := { sessionStartedAt := 0, sessionEndedAt := 0,
                          messageCount := 0 } } []).response.status =
          AcceptStatus.skipped)
    ∧ (∀ t : Nat,
        (accept_session (fun _ => "K") 0
          { userId := "u", sessionId := "s", jobId := "j",
            messages := [{ role := Role.user, content := "abcde",
                           timestamp := t }],
            metadata := { sessionStartedAt := 0, sessionEndedAt := 0,
                          messageCount := 0 } } []).response.status =
          AcceptStatus.processing)) :=
  accept_session_skip_iff (fun _ => "K") 0
    { userId := "u", sessionId := "s", jobId := "j", messages := [],
      metadata := { sessionStartedAt := 0, sessionEndedAt := 0,
                    messageCount := 0 } } []

/-- Claim C7: when the extraction call fails, the background task ends in
`fail_job` with the failure message and the fixed code
`GRAPH_PROCESSING_ERROR` (and in particular, a job still present in the store
is recorded as failed with exactly those details); as a total function the
task lets no exception escape. -/
theorem process_background_failure_recorded (job_id model : String)
    (elapsed_ms : Nat) (e : String) (store : JobStore) (entry : JobEntry)
    (hget : get_job store job_id = some entry) :
    process_background job_id model elapsed_ms (Except.error e) store =
      fail_job job_id e (some "GRAPH_PROCESSING_ERROR") store
    ∧ get_job
        (process_background job_id model elapsed_ms (Except.error e) store)
        job_id =
      some { entry with
             status := JobStatus.failed, error := some e,
             code := some "GRAPH_PROCESSING_ERROR" } := by
  refine ⟨rfl, ?_⟩
  show get_job (fail_job job_id e (some "GRAPH_PROCESSING_ERROR") store)
      job_id = _
  rw [get_job_fail, if_pos rfl, hget]
  rfl

/-- Witness for C7 at a concrete store holding one processing job. -/
theorem process_background_failure_recorded_witness :
    process_background "j" "gemini" 7 (Except.error "boom")
        [("j", { status := JobStatus.processing, user_id := "u",
                 session_id := "s", created_at := 0 })] =
      fail_job "j" "boom" (some "GRAPH_PROCESSING_ERROR")
        [("j", { status := JobStatus.processing, user_id := "u",
                 session_id := "s", created_at := 0 })]
    ∧ get_job
        (process_background "j" "gemini" 7 (Except.error "boom")
          [("j", { status := JobStatus.processing, user_id := "u",
                   session_id := "s", created_at := 0 })]) "j" =
      some { status := JobStatus.failed, user_id := "u", session_id := "s",
             created_at := 0, error := some "boom",
             code := some "GRAPH_PROCESSING_ERROR" } :=
  process_background_failure_recorded "j" "gemini" 7 "boom"
    [("j", { status := JobStatus.processing, user_id := "u",
             session_id := "s", created_at := 0 })]
    { status := JobStatus.processing, user_id := "u", session_id := "s",
      created_at := 0 } rfl

/-- Claim C1: once an `accept_session` call has accepted a job (created its
entry and launched the background task), a second `accept_session` for the
same `jobId` — any retried submission that passes validation — returns
`status=processing`, launches no second task and leaves the store unchanged,
so at most one extraction task is launched per accepted `jobId`. -/
theorem accept_session_launches_at_most_once
    (hydrate hydrate2 : String → String) (now now2 : Nat)
    (request request2 : IngestRequest) (store : JobStore)
    (hjob : request2.jobId = request.jobId)
    (hmsg : should_ingest request2.messages = true)
    (hlaunched : (accept_session hydrate now request store).launched = true) :
    (accept_session hydrate2 now2 request2
        (accept_session hydrate now request store).store).response.status =
      AcceptStatus.processing
    ∧ (accept_session hydrate2 now2 request2
        (accept_session hydrate now request store).store).launched = false
    ∧ (accept_session hydrate2 now2 request2
        (accept_session hydrate now request store).store).store =
      (accept_session hydrate now request store).store := by
  have h1 : ¬ should_ingest request.messages = false := by
    intro h1
    rw [accept_session, if_pos h1] at hlaunched
    simp at hlaunched
  have hfresh : get_job store request.jobId = none := by
    cases ho : get_job store request.jobId with
    | none => rfl
    | some en =>
      exfalso
      have hpres :
          create_job request.jobId request.userId request.sessionId now
            store = (false, store) :=
        create_job_of_present _ _ _ _ _ (by rw [ho]; rfl)
      rw [accept_session, if_neg h1] at hlaunched
      simp only [hpres] at hlaunched
      simp at hlaunched
  have hacc1 : accept_session hydrate now request store =
      { response :=
          { jobId := request.jobId, status := AcceptStatus.processing },
        store :=
          (request.jobId,
            { status := JobStatus.processing, user_id := request.userId,
              session_id := request.sessionId, created_at := now }) :: store,
        launched := true } := by
    rw [accept_session, if_neg h1]
    simp only [create_job_of_absent _ _ _ _ _ hfresh]
    simp
  rw [hacc1]
  have hdup :
      create_job request2.jobId request2.userId request2.sessionId now2
        ((request.jobId,
          { status := JobStatus.processing, user_id := request.userId,
            session_id := request.sessionId, created_at := now }) :: store) =
      (false,
        (request.jobId,
          { status := JobStatus.processing, user_id := request.userId,
            session_id := request.sessionId, created_at := now }) :: store) :=
    create_job_of_present _ _ _ _ _
      (by rw [get_job_cons, if_pos hjob.symm]; rfl)
  rw [accept_session, if_neg (by simp [hmsg])]
  simp only [hdup]
  simp

/-- Witness for C1: a fresh store, a valid five-character session accepted
and launched once, then the identical request resubmitted. -/
theorem accept_session_launches_at_most_once_witness :
    (accept_session (fun _ => "K2") 1
        { userId := "u", sessionId := "s", jobId := "j",
          messages := [{ role := Role.user, content := "abcde",
                         timestamp := 0 }],
          metadata := { sessionStartedAt := 0, sessionEndedAt := 9,
                        messageCount := 1 } }
        (accept_session (fun _ => "K1") 0
          { userId := "u", sessionId := "s", jobId := "j",
            messages := [{ role := Role.user, content := "abcde",
                           timestamp := 0 }],
            metadata := { sessionStartedAt := 0, sessionEndedAt := 9,
                          messageCount := 1 } } []).store).response.status =
      AcceptStatus.processing
    ∧ (accept_session (fun _ => "K2") 1
        { userId := "u", sessionId := "s", jobId := "j",
          messages := [{ role := Role.user, content := "abcde",
                         timestamp := 0 }],
          metadata := { sessionStartedAt := 0, sessionEndedAt := 9,
                        messageCount := 1 } }
        (accept_session (fun _ => "K1") 0
          { userId := "u", sessionId := "s", jobId := "j",
            messages := [{ role := Role.user, content := "abcde",
                           timestamp := 0 }],
            metadata := { sessionStartedAt := 0, sessionEndedAt := 9,
                          messageCount := 1 } } []).store).launched = false
    ∧ (accept_session (fun _ => "K2") 1
        { userId := "u", sessionId := "s", jobId := "j",
          messages := [{ role := Role.user, content := "abcde",
                         timestamp := 0 }],
          metadata := { sessionStartedAt := 0, sessionEndedAt := 9,
                        messageCount := 1 } }
        (accept_session (fun _ => "K1") 0
          { userId := "u", sessionId := "s", jobId := "j",
            messages := [{ role := Role.user, content := "abcde",
                           timestamp := 0 }],
            metadata := { sessionStartedAt := 0, sessionEndedAt := 9,
                          messageCount := 1 } } []).store).store =
      (accept_session (fun _ => "K1") 0
        { userId := "u", sessionId := "s", jobId := "j",
          messages := [{ role := Role.user, content := "abcde",
                         timestamp := 0 }],
          metadata := { sessionStartedAt := 0, sessionEndedAt := 9,
                        messageCount := 1 } } []).store :=
  accept_session_launches_at_most_once (fun _ => "K1") (fun _ => "K2") 0 1
    { userId := "u", sessionId := "s", jobId := "j",
      messages := [{ role := Role.user, content := "abcde", timestamp := 0 }],
      metadata := { sessionStartedAt := 0, sessionEndedAt := 9,
                    messageCount := 1 } }
    { userId := "u", sessionId := "s", jobId := "j",
      messages := [{ role := Role.user, content := "abcde", timestamp := 0 }],
      metadata := { sessionStartedAt := 0, sessionEndedAt := 9,
                    messageCount := 1 } }
    [] rfl (by decide) (by decide)

/-- The string rendered for an accept-side status literal. -/
def accept_status_label : AcceptStatus → String
  | AcceptStatus.processing => "processing"
  | AcceptStatus.skipped => "skipped"

/-- The string rendered for a stored job status literal. -/
def job_status_label : JobStatus → String
  | JobStatus.processing => "processing"
  | JobStatus.completed => "completed"
  | JobStatus.failed => "failed"

/-- Claim C9 counterexample: a job that has already reached `completed` is
re-accepted; `accept_session` answers with the literal `processing`, which
does not reflect the stored job state `completed`. -/
theorem accept_session_duplicate_status_cex :
    (get_job
        (complete_job "j" (some "m") (some 1) (some 2) (some 3) (some "ep")
          (create_job "j" "u" "s" 0 []).2) "j").map (fun en => en.status) =
      some JobStatus.completed
    ∧ (accept_session (fun _ => "K") 1
        { userId := "u", sessionId := "s", jobId := "j",
          messages := [{ role := Role.user, content := "abcde",
                         timestamp := 0 }],
          metadata := { sessionStartedAt := 0, sessionEndedAt := 9,
                        messageCount := 1 } }
        (complete_job "j" (some "m") (some 1) (some 2) (some 3) (some "ep")
          (create_job "j" "u" "s" 0 []).2)).response.status =
      AcceptStatus.processing
    ∧ accept_status_label AcceptStatus.processing ≠
        job_status_label JobStatus.completed := by
  refine ⟨by decide, by decide, by decide⟩

/-- Claim C9 (amended): re-accepting a `jobId` already present in the store
always returns `status=processing`, launches no task and leaves the store
unchanged, whatever the current status of the stored job; the returned
status names the current state of the job exactly when that state is still
`processing`. -/
theorem accept_session_duplicate_processing (hydrate : String → String)
    (now : Nat) (request : IngestRequest) (store : JobStore)
    (entry : JobEntry) (hget : get_job store request.jobId = some entry)
    (hmsg : should_ingest request.messages = true) :
    accept_session hydrate now request store =
      { response :=
          { jobId := request.jobId, status := AcceptStatus.processing },
        store := store, launched := false }
    ∧ (entry.status = JobStatus.processing →
        job_status_label entry.status =
          accept_status_label AcceptStatus.processing) := by
  constructor
  · rw [accept_session, if_neg (by simp [hmsg])]
    simp only [create_job_of_present _ _ _ _ _ (by rw [hget]; rfl)]
    simp
  · intro hst
    rw [hst]
    rfl

/-- Witness for C9 (amended) on a store holding one processing job. -/
theorem accept_session_duplicate_processing_witness :
    accept_session (fun _ => "K") 1
        { userId := "u", sessionId := "s", jobId := "j",
          messages := [{ role := Role.user, content := "abcde",
                         timestamp := 0 }],
          metadata := { sessionStartedAt := 0, sessionEndedAt := 9,
                        messageCount := 1 } }
        [("j", { status := JobStatus.processing, user_id := "u",
                 session_id := "s", created_at := 0 })] =
      { response := { jobId := "j", status := AcceptStatus.processing },
        store :=
          [("j", { status := JobStatus.processing, user_id := "u",
                   session_id := "s", created_at := 0 })],
        launched := false }
    ∧ (({ status := JobStatus.processing, user_id := "u", session_id := "s",
          created_at := 0 } : JobEntry).status = JobStatus.processing →
        job_status_label
            ({ status := JobStatus.processing, user_id := "u",
               session_id := "s", created_at := 0 } : JobEntry).status =
          accept_status_label AcceptStatus.processing) :=
  accept_session_duplicate_processing (fun _ => "K") 1
    { userId := "u", sessionId := "s", jobId := "j",
      messages := [{ role := Role.user, content := "abcde", timestamp := 0 }],
      metadata := { sessionStartedAt := 0, sessionEndedAt := 9,
                    messageCount := 1 } }
    [("j", { status := JobStatus.processing, user_id := "u",
             session_id := "s", created_at := 0 })]
    { status := JobStatus.processing, user_id := "u", session_id := "s",
      created_at := 0 } rfl (by decide)

/-! ## Poll route (`ingest_status` in `app/api/routes.py`) -/

/-- `IngestResponseMetadata` (`schemas/models.py`): `model` is required, the
rest optional. -/
structure IngestResponseMetadata where
  model : String
  processing_time_ms : Option Nat := none
  nodes_extracted : Option Nat := none
  edges_extracted : Option Nat := none
  episode_id : Option String := none
deriving DecidableEq

/-- Modelled from the spec: the poll-side status is one of
`processing | completed | failed` (the `IngestStatusResponse` class is
missing from the bundled `schemas/models.py` revision; `routes.py` only ever
constructs these three literals). -/
inductive PollStatus where
  | processing
  | completed
  | failed
deriving DecidableEq

/-- Modelled from the spec: `IngestStatusResponse` with exactly the fields
`routes.py` passes to the constructor. -/
structure IngestStatusResponse where
  jobId : String
  status : PollStatus
  userKnowledgeCompilation : Option String := none
  metadata : Option IngestResponseMetadata := none
  error : Option String := none
  code : Option String := none
deriving DecidableEq

/-- The outcome of one poll: either the 404 `HTTPException` (`notFound`) or a
response body. -/
inductive PollOutcome where
  | notFound
  | ok (response : IngestStatusResponse)
deriving DecidableEq

/-- `ingest_status`: poll a job. The on-demand hydration call is the
suspension point `hydrate`; a raised hydration exception is the `Except.error`
of the first component, and the second component is the job store at the
moment the handler finishes (normally or by raising). -/
def ingest_status (hydrate : String → Except String String) (job_id : String)
    (store : JobStore) : Except String PollOutcome × JobStore :=
  match get_job store job_id with
  | none => (Except.ok PollOutcome.notFound, store)
  | some job =>
    match job.status with
    | JobStatus.processing =>
        (Except.ok (PollOutcome.ok
          { jobId := job_id, status := PollStatus.processing }), store)
    | JobStatus.completed =>
      match hydrate job.user_id with
      | Except.error e => (Except.error e, store)
      | Except.ok compilation =>
        let metadata : Option IngestResponseMetadata :=
          if job.model.isSome || job.processing_time_ms.isSome
              || job.nodes_extracted.isSome || job.edges_extracted.isSome
              || job.episode_id.isSome then
            some
              { model :=
                  match job.model with
                  | none => "unknown"
                  | some m => if m = "" then "unknown" else m,
                processing_time_ms := job.processing_time_ms,
                nodes_extracted := job.nodes_extracted,
                edges_extracted := job.edges_extracted,
                episode_id := job.episode_id }
          else none
        (Except.ok (PollOutcome.ok
          { jobId := job_id, status := PollStatus.completed,
            userKnowledgeCompilation := some compilation,
            metadata := metadata }),
         remove_job job_id store)
    | JobStatus.failed =>
        (Except.ok (PollOutcome.ok
          { jobId := job_id, status := PollStatus.failed,
            error := job.error, code := job.code }),
         remove_job job_id store)

/-- Claim C3: a terminal job is delivered once and then reclaimed. If the
background task failed a present job, the next poll returns `status=failed`
with the recorded message and code `GRAPH_PROCESSING_ERROR` and removes the
entry; a completed job (with succeeding hydration) is delivered with its
compilation and removed; in both cases a subsequent poll of the same `jobId`
reports not-found rather than a status. -/
theorem ingest_status_terminal_read_consumes
    (hydrate : String → Except String String) (job_id model : String)
    (elapsed : Nat) (e : String) (store : JobStore) (entry : JobEntry)
    (c : String) (hget : get_job store job_id = some entry) :
    ((ingest_status hydrate job_id
        (process_background job_id model elapsed (Except.error e) store)).1 =
        Except.ok (PollOutcome.ok
          { jobId := job_id, status := PollStatus.failed, error := some e,
            code := some "GRAPH_PROCESSING_ERROR" })
      ∧ (ingest_status hydrate job_id
          (process_background job_id model elapsed (Except.error e) store)).2 =
        remove_job job_id
          (process_background job_id model elapsed (Except.error e) store)
      ∧ (ingest_status hydrate job_id
          (ingest_status hydrate job_id
            (process_background job_id model elapsed
              (Except.error e) store)).2).1 =
        Except.ok PollOutcome.notFound)
    ∧ (entry.status = JobStatus.completed →
        hydrate entry.user_id = Except.ok c →
        (∃ md, (ingest_status hydrate job_id store).1 =
            Except.ok (PollOutcome.ok
              { jobId := job_id, status := PollStatus.completed,
                userKnowledgeCompilation := some c, metadata := md }))
        ∧ (ingest_status hydrate job_id store).2 = remove_job job_id store
        ∧ (ingest_status hydrate job_id
            (ingest_status hydrate job_id store).2).1 =
          Except.ok PollOutcome.notFound) := by
  have hfailed :
      get_job (process_background job_id model elapsed (Except.error e) store)
        job_id =
      some { entry with
             status := JobStatus.failed, error := some e,
             code := some "GRAPH_PROCESSING_ERROR" } := by
    show get_job (fail_job job_id e (some "GRAPH_PROCESSING_ERROR") store)
        job_id = _
    rw [get_job_fail, if_pos rfl, hget]
    rfl
  have hremoved : ∀ s : JobStore,
      ingest_status hydrate job_id (remove_job job_id s) =
        (Except.ok PollOutcome.notFound, remove_job job_id s) := by
    intro s
    simp [ingest_status, get_job_remove]
  constructor
  · have hrun :
        ingest_status hydrate job_id
          (process_background job_id model elapsed (Except.error e) store) =
        (Except.ok (PollOutcome.ok
            { jobId := job_id, status := PollStatus.failed, error := some e,
              code := some "GRAPH_PROCESSING_ERROR" }),
          remove_job job_id
            (process_background job_id model elapsed (Except.error e) store)) := by
      rw [ingest_status, hfailed]
    rw [hrun]
    refine ⟨rfl, rfl, ?_⟩
    rw [hremoved]
  · intro hst hhy
    have hrun : ingest_status hydrate job_id store =
        (Except.ok (PollOutcome.ok
            { jobId := job_id, status := PollStatus.completed,
              userKnowledgeCompilation := some c,
              metadata :=
                if entry.model.isSome || entry.processing_time_ms.isSome
                    || entry.nodes_extracted.isSome
                    || entry.edges_extracted.isSome
                    || entry.episode_id.isSome then
                  some
                    { model :=
                        match entry.model with
                        | none => "unknown"
                        | some m => if m = "" then "unknown" else m,
                      processing_time_ms := entry.processing_time_ms,
                      nodes_extracted := entry.nodes_extracted,
                      edges_extracted := entry.edges_extracted,
                      episode_id := entry.episode_id }
                else none }),
          remove_job job_id store) := by
      simp only [ingest_status, hget, hst, hhy]
    rw [hrun]
    exact ⟨⟨_, rfl⟩, rfl, by rw [hremoved]⟩

/-- Witness for C3: a one-job store; the failed branch after a background
failure, and the completed branch on a completed entry. -/
theorem ingest_status_terminal_read_consumes_witness :
    ((ingest_status (fun _ => Except.ok "K") "j"
        (process_background "j" "gemini" 7 (Except.error "boom")
          [("j", { status := JobStatus.completed, user_id := "u",
                   session_id := "s", created_at := 0,
                   model := some "gemini", processing_time_ms := some 7,
                   nodes_extracted := some 3, edges_extracted := some 5,
                   episode_id := some "ep" })])).1 =
        Except.ok (PollOutcome.ok
          { jobId := "j", status := PollStatus.failed, error := some "boom",
            code := some "GRAPH_PROCESSING_ERROR" })
      ∧ (ingest_status (fun _ => Except.ok "K") "j"
          (process_background "j" "gemini" 7 (Except.error "boom")
            [("j", { status := JobStatus.completed, user_id := "u",
                     session_id := "s", created_at := 0,
                     model := some "gemini", processing_time_ms := some 7,
                     nodes_extracted := some 3, edges_extracted := some 5,
                     episode_id := some "ep" })])).2 =
        remove_job "j"
          (process_background "j" "gemini" 7 (Except.error "boom")
            [("j", { status := JobStatus.completed, user_id := "u",
                     session_id := "s", created_at := 0,
                     model := some "gemini", processing_time_ms := some 7,
                     nodes_extracted := some 3, edges_extracted := some 5,
                     episode_id := some "ep" })])
      ∧ (ingest_status (fun _ => Except.ok "K") "j"
          (ingest_status (fun _ => Except.ok "K") "j"
            (process_background "j" "gemini" 7 (Except.error "boom")
              [("j", { status := JobStatus.completed, user_id := "u",
                       session_id := "s", created_at := 0,
                       model := some "gemini", processing_time_ms := some 7,
                       nodes_extracted := some 3, edges_extracted := some 5,
                       episode_id := some "ep" })])).2).1 =
        Except.ok PollOutcome.notFound)
    ∧ (({ status := JobStatus.completed, user_id := "u", session_id := "s",
          created_at := 0, model := some "gemini",
          processing_time_ms := some 7, nodes_extracted := some 3,
          edges_extracted := some 5, episode_id := some "ep" }
          : JobEntry).status = JobStatus.completed →
        (Except.ok "K" : Except String String) = Except.ok "K" →
        (∃ md, (ingest_status (fun _ => Except.ok "K") "j"
            [("j", { status := JobStatus.completed, user_id := "u",
                     session_id := "s", created_at := 0,
                     model := some "gemini", processing_time_ms := some 7,
                     nodes_extracted := some 3, edges_extracted := some 5,
                     episode_id := some "ep" })]).1 =
            Except.ok (PollOutcome.ok
              { jobId := "j", status := PollStatus.completed,
                userKnowledgeCompilation := some "K", metadata := md }))
        ∧ (ingest_status (fun _ => Except.ok "K") "j"
            [("j", { status := JobStatus.completed, user_id := "u",
                     session_id := "s", created_at := 0,
                     model := some "gemini", processing_time_ms := some 7,
                     nodes_extracted := some 3, edges_extracted := some 5,
                     episode_id := some "ep" })]).2 =
          remove_job "j"
            [("j", { status := JobStatus.completed, user_id := "u",
                     session_id := "s", created_at := 0,
                     model := some "gemini", processing_time_ms := some 7,
                     nodes_extracted := some 3, edges_extracted := some 5,
                     episode_id := some "ep" })]
        ∧ (ingest_status (fun _ => Except.ok "K") "j"
            (ingest_status (fun _ => Except.ok "K") "j"
              [("j", { status := JobStatus.completed, user_id := "u",
                       session_id := "s", created_at := 0,
                       model := some "gemini", processing_time_ms := some 7,
                       nodes_extracted := some 3, edges_extracted := some 5,
                       episode_id := some "ep" })]).2).1 =
          Except.ok PollOutcome.notFound) :=
  ingest_status_terminal_read_consumes (fun _ => Except.ok "K") "j" "gemini"
    7 "boom"
    [("j", { status := JobStatus.completed, user_id := "u",
             session_id := "s", created_at := 0, model := some "gemini",
             processing_time_ms := some 7, nodes_extracted := some 3,
             edges_extracted := some 5, episode_id := some "ep" })]
    { status := JobStatus.completed, user_id := "u", session_id := "s",
      created_at := 0, model := some "gemini", processing_time_ms := some 7,
      nodes_extracted := some 3, edges_extracted := some 5,
      episode_id := some "ep" }
    "K" rfl

/-- Claim C10: when the on-demand hydration of a completed job raises, the
exception propagates before `remove_job` runs: the handler ends with the
store exactly as it was, the completed entry still present, and a retry poll
whose hydration succeeds still finds and delivers the job. -/
theorem ingest_status_hydration_error_preserves_store
    (hydrate hydrate2 : String → Except String String) (job_id : String)
    (store : JobStore) (entry : JobEntry) (e c : String)
    (hget : get_job store job_id = some entry)
    (hst : entry.status = JobStatus.completed)
    (hhy : hydrate entry.user_id = Except.error e)
    (hhy2 : hydrate2 entry.user_id = Except.ok c) :
    ingest_status hydrate job_id store = (Except.error e, store)
    ∧ (∃ md, (ingest_status hydrate2 job_id store).1 =
        Except.ok (PollOutcome.ok
          { jobId := job_id, status := PollStatus.completed,
            userKnowledgeCompilation := some c, metadata := md })) := by
  constructor
  · simp only [ingest_status, hget, hst, hhy]
  · simp only [ingest_status, hget, hst, hhy2]
    exact ⟨_, rfl⟩

/-- Witness for C10: one completed job, a failing hydration, then a
succeeding retry. -/
theorem ingest_status_hydration_error_preserves_store_witness :
    ingest_status (fun _ => Except.error "down") "j"
        [("j", { status := JobStatus.completed, user_id := "u",
                 session_id := "s", created_at := 0,
                 model := some "gemini" })] =
      (Except.error "down",
        [("j", { status := JobStatus.completed, user_id := "u",
                 session_id := "s", created_at := 0,
                 model := some "gemini" })])
    ∧ (∃ md, (ingest_status (fun _ => Except.ok "K") "j"
        [("j", { status := JobStatus.completed, user_id := "u",
                 session_id := "s", created_at := 0,
                 model := some "gemini" })]).1 =
        Except.ok (PollOutcome.ok
          { jobId := "j", status := PollStatus.completed,
            userKnowledgeCompilation := some "K", metadata := md })) :=
  ingest_status_hydration_error_preserves_store
    (fun _ => Except.error "down") (fun _ => Except.ok "K") "j"
    [("j", { status := JobStatus.completed, user_id := "u",
             session_id := "s", created_at := 0, model := some "gemini" })]
    { status := JobStatus.completed, user_id := "u", session_id := "s",
      created_at := 0, model := some "gemini" }
    "down" "K" rfl rfl rfl rfl

/-! ## Store reachability and the metadata invariant (claim C8) -/

/-- Stores reachable from the empty dictionary by arbitrary sequences of the
store operations, each applied exactly as the source defines it. -/
inductive StoreReachable : JobStore → Prop where
  | empty : StoreReachable []
  | create (job_id u s : String) (now : Nat) (store : JobStore) :
      StoreReachable store →
      StoreReachable (create_job job_id u s now store).2
  | complete (job_id : String) (m : Option String) (t n e : Option Nat)
      (ep : Option String) (store : JobStore) :
      StoreReachable store →
      StoreReachable (complete_job job_id m t n e ep store)
  | fail (job_id err : String) (c : Option String) (store : JobStore) :
      StoreReachable store →
      StoreReachable (fail_job job_id err c store)
  | remove (job_id : String) (store : JobStore) :
      StoreReachable store →
      StoreReachable (remove_job job_id store)

/-- All five completion-metadata fields present. -/
def completion_populated (en : JobEntry) : Prop :=
  en.model.isSome ∧ en.processing_time_ms.isSome ∧ en.nodes_extracted.isSome
    ∧ en.edges_extracted.isSome ∧ en.episode_id.isSome

/-- All five completion-metadata fields absent. -/
def completion_empty (en : JobEntry) : Prop :=
  en.model = none ∧ en.processing_time_ms = none ∧ en.nodes_extracted = none
    ∧ en.edges_extracted = none ∧ en.episode_id = none

/-- Both failure-metadata fields present. -/
def failure_populated (en : JobEntry) : Prop :=
  en.error.isSome ∧ en.code.isSome

/-- Both failure-metadata fields absent. -/
def failure_empty (en : JobEntry) : Prop :=
  en.error = none ∧ en.code = none

/-- The claimed per-entry invariant: a processing job carries neither
metadata group; a completed job carries exactly the completion metadata; a
failed job carries exactly the failure metadata. -/
def entry_invariant (en : JobEntry) : Prop :=
  (en.status = JobStatus.processing → completion_empty en ∧ failure_empty en)
  ∧ (en.status = JobStatus.completed →
      completion_populated en ∧ failure_empty en)
  ∧ (en.status = JobStatus.failed →
      failure_populated en ∧ completion_empty en)

/-- Claim C8 counterexample: the operation sequence `create; fail; complete`
— legal store operations, since `complete_job` overwrites whatever entry is
present and clears no failure fields — reaches a store whose job is
`completed` yet still carries `error` and `code`, so completion and failure
metadata are simultaneously populated. -/
theorem store_metadata_exclusive_cex :
    StoreReachable
      (complete_job "j" (some "m") (some 1) (some 2) (some 3) (some "ep")
        (fail_job "j" "boom" (some "GRAPH_PROCESSING_ERROR")
          (create_job "j" "u" "s" 0 []).2))
    ∧ (get_job
        (complete_job "j" (some "m") (some 1) (some 2) (some 3) (some "ep")
          (fail_job "j" "boom" (some "GRAPH_PROCESSING_ERROR")
            (create_job "j" "u" "s" 0 []).2)) "j").map
        (fun en => (en.status, en.model, en.error, en.code)) =
      some (JobStatus.completed, some "m", some "boom",
        some "GRAPH_PROCESSING_ERROR") := by
  refine ⟨?_, by decide⟩
  exact StoreReachable.complete "j" (some "m") (some 1) (some 2) (some 3)
    (some "ep") _
    (StoreReachable.fail "j" "boom" (some "GRAPH_PROCESSING_ERROR") _
      (StoreReachable.create "j" "u" "s" 0 [] StoreReachable.empty))

/-- Stores reachable through the operations as the system actually performs
them: jobs are created by `accept_session` via `create_job`, reach a terminal
state only through `_process_background` — which the coordinator launches at
most once per created job, so it only ever terminalises a job that is still
`processing` — and are deleted by the polling route via `remove_job`. -/
inductive SysReachable : JobStore → Prop where
  | empty : SysReachable []
  | create (job_id u s : String) (now : Nat) (store : JobStore) :
      SysReachable store →
      SysReachable (create_job job_id u s now store).2
  | finish (job_id model : String) (elapsed_ms : Nat)
      (extraction : Except String ExtractionResult) (store : JobStore) :
      SysReachable store →
      (∀ en, get_job store job_id = some en →
        en.status = JobStatus.processing) →
      SysReachable (process_background job_id model elapsed_ms extraction store)
  | remove (job_id : String) (store : JobStore) :
      SysReachable store →
      SysReachable (remove_job job_id store)

/-- Claim C8 (amended): for every job reachable through the operations as the
system performs them — at most one terminal transition per created job,
applied while the job is still `processing` — exactly one of the completion
metadata and the failure metadata is populated, and only once the status is
terminal; a `processing` job carries neither. -/
theorem job_store_metadata_invariant :
    ∀ store : JobStore, SysReachable store →
      ∀ job_id en, get_job store job_id = some en → entry_invariant en := by
  intro store h
  induction h with
  | empty =>
    intro job_id en hget
    simp [get_job] at hget
  | create jid u s now st hst ih =>
    intro job_id en hget
    by_cases hpres : (get_job st jid).isSome = true
    · rw [create_job_of_present jid u s now st hpres] at hget
      exact ih job_id en hget
    · have hfresh : get_job st jid = none := by
        cases hg : get_job st jid with
        | none => rfl
        | some x => rw [hg] at hpres; exact absurd rfl hpres
      rw [create_job_of_absent jid u s now st hfresh, get_job_cons] at hget
      by_cases hj : jid = job_id
      · rw [if_pos hj] at hget
        have hen := Option.some.inj hget
        rw [← hen]
        exact ⟨fun _ => ⟨⟨rfl, rfl, rfl, rfl, rfl⟩, rfl, rfl⟩,
          fun hcon => by simp at hcon,
          fun hcon => by simp at hcon⟩
      · rw [if_neg hj] at hget
        exact ih job_id en hget
  | finish jid model elapsed ext st hst hproc ih =>
    intro job_id en hget
    cases ext with
    | ok result =>
      have hpb :
          process_background jid model elapsed (Except.ok result) st =
            complete_job jid (some model) (some elapsed) (some result.nodes)
              (some result.edges) (some result.episode_uuid) st := rfl
      rw [hpb, get_job_complete] at hget
      by_cases hj : job_id = jid
      · rw [if_pos hj] at hget
        cases hg : get_job st job_id with
        | none => rw [hg] at hget; simp at hget
        | some prev =>
          rw [hg] at hget
          simp only [Option.map_some'] at hget
          have hprev := ih job_id prev hg
          have hprevproc : prev.status = JobStatus.processing :=
            hproc prev (hj ▸ hg)
          have hempty := (hprev.1 hprevproc).2
          rw [← Option.some.inj hget]
          exact ⟨fun hcon => by simp at hcon,
            fun _ => ⟨⟨rfl, rfl, rfl, rfl, rfl⟩, hempty.1, hempty.2⟩,
            fun hcon => by simp at hcon⟩
      · rw [if_neg hj] at hget
        exact ih job_id en hget
    | error e =>
      have hpb :
          process_background jid model elapsed (Except.error e) st =
            fail_job jid e (some "GRAPH_PROCESSING_ERROR") st := rfl
      rw [hpb, get_job_fail] at hget
      by_cases hj : job_id = jid
      · rw [if_pos hj] at hget
        cases hg : get_job st job_id with
        | none => rw [hg] at hget; simp at hget
        | some prev =>
          rw [hg] at hget
          simp only [Option.map_some'] at hget
          have hprev := ih job_id prev hg
          have hprevproc : prev.status = JobStatus.processing :=
            hproc prev (hj ▸ hg)
          have hempty := (hprev.1 hprevproc).1
          rw [← Option.some.inj hget]
          exact ⟨fun hcon => by simp at hcon,
            fun hcon => by simp at hcon,
            fun _ => ⟨⟨rfl, rfl⟩, hempty.1, hempty.2.1, hempty.2.2.1,
              hempty.2.2.2.1, hempty.2.2.2.2⟩⟩
      · rw [if_neg hj] at hget
        exact ih job_id en hget
  | remove jid st hst ih =>
    intro job_id en hget
    rw [get_job_remove] at hget
    by_cases hj : job_id = jid
    · rw [if_pos hj] at hget
      exact absurd hget (by simp)
    · rw [if_neg hj] at hget
      exact ih job_id en hget

/-- Witness for C8 (amended): the invariant evaluated on the failed entry of
a concrete system-reachable store. -/
theorem job_store_metadata_invariant_witness :
    entry_invariant
      { status := JobStatus.failed, user_id := "u", session_id := "s",
        created_at := 0, error := some "x",
        code := some "GRAPH_PROCESSING_ERROR" } :=
  job_store_metadata_invariant
    (process_background "j" "m" 5 (Except.error "x")
      (create_job "j" "u" "s" 0 []).2)
    (SysReachable.finish "j" "m" 5 (Except.error "x") _
      (SysReachable.create "j" "u" "s" 0 [] SysReachable.empty)
      (fun en hen => by
        simp [get_job, create_job] at hen
        rw [← hen]))
    "j" _ rfl

/-! ## Reference-level model of the store (claim C4)

In Python, `_jobs.get(job_id)` hands back the stored `JobEntry` object itself,
not a copy, and `complete_job`/`fail_job` mutate that same object in place.
To talk about aliasing, the dictionary is modelled one level lower: a heap of
entries addressed by position, and a dictionary from job id to address.
`get_job` returns the address; dereferencing it later observes any in-place
mutation, while `remove_job` only drops the dictionary binding and leaves the
object itself intact. -/

/-- The heap of `JobEntry` objects; an address is an index. -/
abbrev JobHeap := List JobEntry

/-- Dereference an address. -/
def deref : JobHeap → Nat → Option JobEntry
  | [], _ => none
  | en :: _, 0 => some en
  | _ :: rest, a + 1 => deref rest a

/-- In-place mutation of the object at an address. -/
def heap_modify : JobHeap → Nat → (JobEntry → JobEntry) → JobHeap
  | [], _, _ => []
  | en :: rest, 0, f => f en :: rest
  | en :: rest, a + 1, f => en :: heap_modify rest a f

/-- The `_jobs` dictionary at reference level: bindings to heap addresses,
plus the heap. -/
structure RefJobStore where
  refs : List (String × Nat)
  heap : JobHeap
deriving DecidableEq

/-- Address lookup in the dictionary. -/
def get_ref : List (String × Nat) → String → Option Nat
  | [], _ => none
  | (k, a) :: rest, job_id => if k = job_id then some a else get_ref rest job_id

/-- `get_job` at reference level: the returned value is the reference to the
stored object. -/
def get_job_ref (s : RefJobStore) (job_id : String) : Option Nat :=
  get_ref s.refs job_id

/-- `complete_job` at reference level: mutates the referenced object in
place. -/
def complete_job_ref (job_id : String) (model : Option String)
    (processing_time_ms : Option Nat) (nodes_extracted : Option Nat)
    (edges_extracted : Option Nat) (episode_id : Option String)
    (s : RefJobStore) : RefJobStore :=
  match get_ref s.refs job_id with
  | none => s
  | some a =>
    { s with
      heap := heap_modify s.heap a fun en =>
        { en with
          status := JobStatus.completed, model := model,
          processing_time_ms := processing_time_ms,
          nodes_extracted := nodes_extracted,
          edges_extracted := edges_extracted, episode_id := episode_id } }

/-- `fail_job` at reference level: mutates the referenced object in place. -/
def fail_job_ref (job_id : String) (error : String) (code : Option String)
    (s : RefJobStore) : RefJobStore :=
  match get_ref s.refs job_id with
  | none => s
  | some a =>
    { s with
      heap := heap_modify s.heap a fun en =>
        { en with
          status := JobStatus.failed, error := some error, code := code } }

/-- `remove_job` at reference level: drops the dictionary binding; the object
itself, and hence any reference previously handed out, is untouched. -/
def remove_job_ref (job_id : String) (s : RefJobStore) : RefJobStore :=
  { s with refs := s.refs.filter fun p => p.1 ≠ job_id }

theorem deref_heap_modify (h : JobHeap) (a : Nat) (f : JobEntry → JobEntry) :
    deref (heap_modify h a f) a = (deref h a).map f := by
  induction h generalizing a with
  | nil => simp [deref, heap_modify]
  | cons en rest ih =>
    cases a with
    | zero => simp [deref, heap_modify]
    | succ a => simp [deref, heap_modify, ih]

/-- Claim C4 counterexample: `get_job` does not return a snapshot. On a
one-job store, `get_job` hands out a reference; after `complete_job` the
value observed through that same reference has changed, so the value returned
by `get` is affected by a later store mutation. -/
theorem get_job_snapshot_cex :
    get_job_ref
      { refs := [("j", 0)],
        heap := [{ status := JobStatus.processing, user_id := "u",
                   session_id := "s", created_at := 0 }] } "j" = some 0
    ∧ deref
        ({ refs := [("j", 0)],
           heap := [{ status := JobStatus.processing, user_id := "u",
                      session_id := "s", created_at := 0 }] }
          : RefJobStore).heap 0 =
      some { status := JobStatus.processing, user_id := "u",
             session_id := "s", created_at := 0 }
    ∧ deref
        (complete_job_ref "j" (some "m") (some 1) (some 2) (some 3)
          (some "ep")
          { refs := [("j", 0)],
            heap := [{ status := JobStatus.processing, user_id := "u",
                       session_id := "s", created_at := 0 }] }).heap 0 ≠
      deref
        ({ refs := [("j", 0)],
           heap := [{ status := JobStatus.processing, user_id := "u",
                      session_id := "s", created_at := 0 }] }
          : RefJobStore).heap 0 := by
  refine ⟨by decide, by decide, by decide⟩

/-- Claim C4 (amended): `get_job` returns a live reference to the stored
entry, not a snapshot: after a later `complete_job` or `fail_job` on that
`jobId` the value observed through the reference is the mutated entry, while
`remove_job` leaves the referenced object unchanged. -/
theorem get_job_returns_live_reference (s : RefJobStore) (job_id : String)
    (a : Nat) (model err : String)
    (pt : Option Nat) (nx : Option Nat) (ee : Option Nat)
    (ep : Option String) (c : Option String)
    (href : get_job_ref s job_id = some a) :
    deref (complete_job_ref job_id (some model) pt nx ee ep s).heap a =
      (deref s.heap a).map (fun en =>
        { en with
          status := JobStatus.completed, model := some model,
          processing_time_ms := pt, nodes_extracted := nx,
          edges_extracted := ee, episode_id := ep })
    ∧ deref (fail_job_ref job_id err c s).heap a =
      (deref s.heap a).map (fun en =>
        { en with status := JobStatus.failed, error := some err, code := c })
    ∧ deref (remove_job_ref job_id s).heap a = deref s.heap a := by
  refine ⟨?_, ?_, rfl⟩
  · rw [complete_job_ref]
    rw [show get_ref s.refs job_id = some a from href]
    exact deref_heap_modify s.heap a _
  · rw [fail_job_ref]
    rw [show get_ref s.refs job_id = some a from href]
    exact deref_heap_modify s.heap a _

/-- Witness for C4 (amended) on the one-job store. -/
theorem get_job_returns_live_reference_witness :
    deref
        (complete_job_ref "j" (some "m") (some 1) (some 2) (some 3)
          (some "ep")
          { refs := [("j", 0)],
            heap := [{ status := JobStatus.processing, user_id := "u",
                       session_id := "s", created_at := 0 }] }).heap 0 =
      (deref
        ({ refs := [("j", 0)],
           heap := [{ status := JobStatus.processing, user_id := "u",
                      session_id := "s", created_at := 0 }] }
          : RefJobStore).heap 0).map (fun en =>
        { en with
          status := JobStatus.completed, model := some "m",
          processing_time_ms := some 1, nodes_extracted := some 2,
          edges_extracted := some 3, episode_id := some "ep" })
    ∧ deref
        (fail_job_ref "j" "boom" (some "GRAPH_PROCESSING_ERROR")
          { refs := [("j", 0)],
            heap := [{ status := JobStatus.processing, user_id := "u",
                       session_id := "s", created_at := 0 }] }).heap 0 =
      (deref
        ({ refs := [("j", 0)],
           heap := [{ status := JobStatus.processing, user_id := "u",
                      session_id := "s", created_at := 0 }] }
          : RefJobStore).heap 0).map (fun en =>
        { en with
          status := JobStatus.failed, error := some "boom",
          code := some "GRAPH_PROCESSING_ERROR" })
    ∧ deref
        (remove_job_ref "j"
          { refs := [("j", 0)],
            heap := [{ status := JobStatus.processing, user_id := "u",
                       session_id := "s", created_at := 0 }] }).heap 0 =
      deref
        ({ refs := [("j", 0)],
           heap := [{ status := JobStatus.processing, user_id := "u",
                      session_id := "s", created_at := 0 }] }
          : RefJobStore).heap 0 :=
  get_job_returns_live_reference
    { refs := [("j", 0)],
      heap := [{ status := JobStatus.processing, user_id := "u",
                 session_id := "s", created_at := 0 }] }
    "j" 0 "m" "boom" (some 1) (some 2) (some 3) (some "ep")
    (some "GRAPH_PROCESSING_ERROR") rfl

end SynapseCortex
